import Mathlib

/-!
Verification of the channel/one-shot adapter helpers, the CLI script
expansion, the REPL input scanner and the JSON conversion helpers of the
rquickjs-test repository, over a shallow embedding of `src/util.rs`,
`src/run.rs`, `src/repl.rs` and the example programs.
-/

set_option linter.unusedVariables false

/-- A host-side failure surfaced by an adapter closure. `jsException m`
models `Exception::throw_message(&ctx, m)` thrown into the script engine;
`hostPanic` models a Rust panic (present in the type so that "never
panics" is a provable statement; no embedded construct produces it). -/
inductive RuntimeErr where
  | jsException (msg : String)
  | hostPanic (msg : String)
deriving DecidableEq, Repr

/-- State of the wrapped one-shot sender of `register_oneshot`
(`src/util.rs` lines 12-40): `sender` is whether the `Option<Sender>`
inside the mutex is still `Some`, `rxAlive` whether the oneshot receiver
has not been dropped, `poisoned` whether the mutex is poisoned, and
`delivered` the value received by the host side, if any. -/
structure OneshotSt (T : Type) where
  sender : Bool
  rxAlive : Bool
  poisoned : Bool
  delivered : Option T
deriving DecidableEq, Repr

/-- The closure registered by `register_oneshot` (`src/util.rs` 23-37):
lock the mutex (Err on poison -> "Mutex Error"), `take()` the sender
(None -> "Already Resolved"), `tx.send(msg)` (Err, i.e. receiver dropped,
-> "TX Channel Closed"). -/
def oneshotCall {T : Type} (st : OneshotSt T) (msg : T) :
    Except RuntimeErr Unit × OneshotSt T :=
  if st.poisoned then
    (.error (.jsException "Mutex Error"), st)
  else if st.sender then
    if st.rxAlive then
      (.ok (), { st with sender := false, delivered := some msg })
    else
      (.error (.jsException "TX Channel Closed"), { st with sender := false })
  else
    (.error (.jsException "Already Resolved"), st)

/-- The inline `resolve` closure of `examples/async_channel.rs` 168-174
(likewise `async_channel_macro.rs`, `mqtt.rs`, `module.rs`):
`if let Ok(mut guard) = tx.lock() { if let Some(tx) = guard.take() {
let _ = tx.send(result); } }` — every branch falls through returning `()`,
no exception is ever thrown. -/
def inlineResolveCall {T : Type} (st : OneshotSt T) (msg : T) :
    Except RuntimeErr Unit × OneshotSt T :=
  if st.poisoned then
    (.ok (), st)
  else if st.sender then
    if st.rxAlive then
      (.ok (), { st with sender := false, delivered := some msg })
    else
      (.ok (), { st with sender := false })
  else
    (.ok (), st)

/-- A fresh one-shot state: sender present, receiver alive, lock clean. -/
def oneshotFresh (T : Type) : OneshotSt T :=
  { sender := true, rxAlive := true, poisoned := false, delivered := none }

/-- State of an unbounded mpsc channel shared between the
`register_tx_channel` / `register_rx_channel` closures and the host:
the queued values in FIFO order, whether each end is still alive, and
whether each adapter's mutex is poisoned. -/
structure ChanSt (T : Type) where
  queue : List T
  txAlive : Bool
  rxAlive : Bool
  txPoisoned : Bool
  rxPoisoned : Bool
deriving DecidableEq, Repr

/-- A fresh channel: empty queue, both ends alive, locks clean. -/
def freshChan (T : Type) : ChanSt T :=
  { queue := [], txAlive := true, rxAlive := true,
    txPoisoned := false, rxPoisoned := false }

/-- The async closure registered by `register_tx_channel` (`src/util.rs`
54-68): lock the mutex (poison -> "Mutex Error"), `send(msg)` on the
unbounded sender: appends to the queue and resolves with `()` while the
receiver is alive, rejects with "TX Channel Closed" once it is dropped. -/
def txChannelCall {T : Type} (st : ChanSt T) (msg : T) :
    Except RuntimeErr Unit × ChanSt T :=
  if st.txPoisoned then
    (.error (.jsException "Mutex Error"), st)
  else if st.rxAlive then
    (.ok (), { st with queue := st.queue ++ [msg] })
  else
    (.error (.jsException "TX Channel Closed"), st)

/-- Outcome of one invocation of an async adapter: the returned future
either completes with a result or suspends awaiting the channel. -/
inductive AdapterOutcome (A : Type) where
  | completes (r : Except RuntimeErr A)
  | suspends
deriving Repr

/-- The async closure registered by `register_rx_channel` (`src/util.rs`
86-102): lock the mutex (poison -> "Mutex Error"), `recv().await`:
yields the head of the queue if non-empty, returns `None` (rejected as
"RX Channel Closed") if the queue is empty and the sender is dropped,
and stays pending if the queue is empty but the sender is alive. -/
def rxChannelCall {T : Type} (st : ChanSt T) :
    AdapterOutcome T × ChanSt T :=
  if st.rxPoisoned then
    (.completes (.error (.jsException "Mutex Error")), st)
  else
    match st.queue with
    | v :: rest => (.completes (.ok v), { st with queue := rest })
    | [] =>
      if st.txAlive then
        (.suspends, st)
      else
        (.completes (.error (.jsException "RX Channel Closed")), st)

/-- Fold a list of values through the send adapter, keeping the state. -/
def sendAll {T : Type} (st : ChanSt T) (vs : List T) : ChanSt T :=
  vs.foldl (fun s v => (txChannelCall s v).2) st

/-- The outcomes of `n` successive invocations of the receive adapter. -/
def recvOutcomes {T : Type} (st : ChanSt T) : Nat → List (AdapterOutcome T)
  | 0 => []
  | n + 1 =>
    let r := rxChannelCall st
    r.1 :: recvOutcomes r.2 n

/-- The `send` closure of `examples/channel.rs` 18-24 (a plain std mpsc
sender moved into the closure, no mutex): `tx.send(msg)` succeeds while
the receiver is alive, otherwise throws "Error sending msg". -/
def sendCall {T : Type} (st : ChanSt T) (msg : T) :
    Except RuntimeErr Unit × ChanSt T :=
  if st.rxAlive then
    (.ok (), { st with queue := st.queue ++ [msg] })
  else
    (.error (.jsException "Error sending msg"), st)

/-- Host-side `rx.recv()` (`examples/channel.rs` line 40): pops the first
queued value, `none` when the queue is exhausted and the sender dropped. -/
def hostRecv {T : Type} (st : ChanSt T) : Option T × ChanSt T :=
  match st.queue with
  | v :: rest => (some v, { st with queue := rest })
  | [] => (none, st)

/-- The inner string-skipping loop of `needs_more_input` (`src/run.rs`
258-268, identical in `src/repl.rs` 69-79): consume characters until the
matching quote, a backslash consuming the following character as well;
returns the characters left after the literal. -/
def skipString (quote : Char) : List Char → List Char
  | [] => []
  | c :: rest =>
    if c = '\\' then
      match rest with
      | [] => []
      | _ :: r => skipString quote r
    else if c = quote then
      rest
    else
      skipString quote rest

/-- The skipped remainder is never longer than the input (needed for the
termination of the outer scanning loop). -/
def skipString_len (quote : Char) (l : List Char) :
    (skipString quote l).length ≤ l.length := by
  induction l using skipString.induct quote with
  | case1 => rw [skipString.eq_def]
  | case2 => rw [skipString.eq_def]; simp
  | case3 x r ih =>
    rw [skipString.eq_def]
    simp only [if_pos]
    simp
    omega
  | case4 r hq =>
    rw [skipString.eq_def]
    simp [hq]
  | case5 c r hb hq ih =>
    rw [skipString.eq_def]
    simp [hb, hq]
    omega

/-- Two's-complement reduction of an `i32` value: the source's balance is
`let mut balance = 0i32` (`src/run.rs` 246, `src/repl.rs` 57), so each
`+= 1` / `-= 1` wraps modulo 2^32 into [-2^31, 2^31) (release-build
semantics). 2147483648 = 2^31 and 4294967296 = 2^32. -/
def wrap32 (x : Int) : Int :=
  (x + 2147483648) % 4294967296 - 2147483648

/-- The scanning loop of `needs_more_input` (`src/run.rs` 245-274):
openers increment the shared `i32` balance (wrapping, `wrap32`), closers
decrement it (returning false the moment it goes negative), quotes skip a
string literal, and at the end of input the answer is whether the balance
is strictly positive. -/
def needsMoreInputLoop : List Char → Int → Bool
  | [], bal => decide (bal > 0)
  | c :: rest, bal =>
    if c = '{' ∨ c = '(' ∨ c = '[' then
      needsMoreInputLoop rest (wrap32 (bal + 1))
    else if c = '}' ∨ c = ')' ∨ c = ']' then
      if wrap32 (bal - 1) < 0 then false
      else needsMoreInputLoop rest (wrap32 (bal - 1))
    else if c = '"' ∨ c = '\'' then
      needsMoreInputLoop (skipString c rest) bal
    else
      needsMoreInputLoop rest bal
termination_by l _ => l.length
decreasing_by
  all_goals simp only [List.length_cons]
  all_goals first
    | exact Nat.lt_succ_of_le (skipString_len _ _)
    | exact Nat.lt_succ_self _

/-- `needs_more_input` (`src/run.rs` 245-274 and `src/repl.rs` 56-85):
the REPL's multi-line continuation test, starting the scan at balance 0. -/
def needs_more_input (input : String) : Bool :=
  needsMoreInputLoop input.data 0

/-- The bracket-delta sequence of an input: +1 per opener, -1 per closer,
scanning left to right and skipping string literals exactly as the source
scanner does. Used only to state the specification of `needs_more_input`. -/
def bracketDeltas : List Char → List Int
  | [] => []
  | c :: rest =>
    if c = '{' ∨ c = '(' ∨ c = '[' then
      1 :: bracketDeltas rest
    else if c = '}' ∨ c = ')' ∨ c = ']' then
      (-1) :: bracketDeltas rest
    else if c = '"' ∨ c = '\'' then
      bracketDeltas (skipString c rest)
    else
      bracketDeltas rest
termination_by l => l.length
decreasing_by
  all_goals simp only [List.length_cons]
  all_goals first
    | exact Nat.lt_succ_of_le (skipString_len _ _)
    | exact Nat.lt_succ_self _

/-- Whether every running sum of the deltas, started from `acc`, stays
non-negative ("the count never goes below zero"). -/
def runningOk : Int → List Int → Bool
  | _, [] => true
  | acc, d :: ds => decide (0 ≤ acc + d) && runningOk (acc + d) ds

/-- Specification of `needs_more_input`, following the claim's words: the
shared bracket count never goes below zero and ends strictly positive. -/
def needs_more_input_spec (input : String) : Bool :=
  runningOk 0 (bracketDeltas input.data) &&
    decide (0 < (bracketDeltas input.data).sum)

/-- Update one global binding, leaving all others untouched (models
`ctx.globals().set(k, v)`). -/
def setGlobal {V : Type} (g : String → Option V) (k : String) (v : V) :
    String → Option V :=
  fun k2 => if k2 = k then some v else g k2

/-- The result handling of one REPL iteration (`src/run.rs` 70-79,
`src/repl.rs` 10-28, `src/run.rs` 106-116): on a defined (non-undefined)
value, bind `_` to it and print it; on an undefined value or an
evaluation error, leave the globals untouched and print no result.
Returns the updated globals and the printed result value, if any. -/
def replApplyResult {V E : Type} (und : V → Bool) (g : String → Option V)
    (r : Except E V) : (String → Option V) × Option V :=
  match r with
  | .ok v => if und v then (g, none) else (setGlobal g "_" v, some v)
  | .error _ => (g, none)

/-- Outcome of `ctx.json_stringify(v)` followed by the
`as_string`/`to_string` chain (`src/util.rs` 134-135): `strval s` when the
engine produced the host string `s`, `noString` when stringification
succeeded but yielded no string (e.g. `JSON.stringify` of a function
returns undefined), `err m` when `json_stringify` itself raised. -/
inductive StringifyOutcome where
  | strval (s : String)
  | noString
  | err (msg : String)
deriving DecidableEq, Repr

/-- A JS value as seen by `value_to_json`: whether it is undefined, and
what stringifying it yields. -/
structure JsVal where
  isUndefined : Bool
  stringify : StringifyOutcome
deriving DecidableEq, Repr

/-- `value_to_json` (`src/util.rs` 130-138): `"null"` for undefined,
otherwise the stringification result, with the error of a failed
`json_stringify` propagated by `?` and the no-string case turned into
the anyhow error "JSON Error" by `ok_or`. -/
def value_to_json (v : JsVal) : Except String String :=
  if v.isUndefined then
    .ok "null"
  else
    match v.stringify with
    | .strval s => .ok s
    | .noString => .error "JSON Error"
    | .err m => .error m

/-- Results that are either a success or a thrown script exception, never
a host panic. -/
def noPanicResult {A : Type} : Except RuntimeErr A → Prop
  | .ok _ => True
  | .error (.jsException _) => True
  | .error (.hostPanic _) => False

/-- Adapter outcomes that never complete with a host panic. -/
def noPanicOutcome {A : Type} : AdapterOutcome A → Prop
  | .suspends => True
  | .completes r => noPanicResult r

/-- `get_script` (`src/run.rs` 10-20): `-` reads stdin, `@path` reads the
file at `path` (the argument with its first byte removed), anything else
is the script itself. `stdinRes` and `fs` stand for the outcomes of
`std::io::stdin().read_to_string` and `std::fs::read_to_string`. -/
def get_script (script : String) (stdinRes : Except String String)
    (fs : String → Except String String) : Except String String :=
  if script = "-" then
    stdinRes
  else if script.startsWith "@" then
    fs (script.drop 1)
  else
    .ok script

/-! Theorems. -/

/-- An `i32` value already in range is unchanged by the wrap. -/
theorem wrap32_eq_self (x : Int) (h1 : -2147483648 ≤ x)
    (h2 : x < 2147483648) : wrap32 x = x := by
  unfold wrap32
  omega

/-- Unfolding the scanner one step on an opener. -/
theorem needsMoreLoop_open (c : Char) (rest : List Char) (bal : Int)
    (hop : c = '{' ∨ c = '(' ∨ c = '[') :
    needsMoreInputLoop (c :: rest) bal =
      needsMoreInputLoop rest (wrap32 (bal + 1)) := by
  simp [needsMoreInputLoop, hop]

/-- Unfolding the scanner one step on a closer. -/
theorem needsMoreLoop_close (c : Char) (rest : List Char) (bal : Int)
    (hop : ¬(c = '{' ∨ c = '(' ∨ c = '[')) (hcl : c = '}' ∨ c = ')' ∨ c = ']') :
    needsMoreInputLoop (c :: rest) bal =
      (if wrap32 (bal - 1) < 0 then false
        else needsMoreInputLoop rest (wrap32 (bal - 1))) := by
  simp [needsMoreInputLoop, hop, hcl]

/-- Unfolding the scanner one step on a quote. -/
theorem needsMoreLoop_quote (c : Char) (rest : List Char) (bal : Int)
    (hop : ¬(c = '{' ∨ c = '(' ∨ c = '[')) (hcl : ¬(c = '}' ∨ c = ')' ∨ c = ']'))
    (hq : c = '"' ∨ c = '\'') :
    needsMoreInputLoop (c :: rest) bal = needsMoreInputLoop (skipString c rest) bal := by
  simp [needsMoreInputLoop, hop, hcl, hq]

/-- Unfolding the scanner one step on any other character. -/
theorem needsMoreLoop_other (c : Char) (rest : List Char) (bal : Int)
    (hop : ¬(c = '{' ∨ c = '(' ∨ c = '[')) (hcl : ¬(c = '}' ∨ c = ')' ∨ c = ']'))
    (hq : ¬(c = '"' ∨ c = '\'')) :
    needsMoreInputLoop (c :: rest) bal = needsMoreInputLoop rest bal := by
  simp [needsMoreInputLoop, hop, hcl, hq]

/-- The scanning loop, started at any non-negative balance that cannot be
pushed past the top of the `i32` range by the remaining openers, answers
exactly "every running sum stays non-negative and the final sum is
positive". The second hypothesis rules the wrap out: the balance only
ever reaches values at most `bal` plus the number of remaining openers. -/
theorem needsMoreLoop_eq_spec (l : List Char) (bal : Int) :
    0 ≤ bal → bal + ((bracketDeltas l).count 1 : Int) < 2147483648 →
    needsMoreInputLoop l bal =
      (runningOk bal (bracketDeltas l) &&
        decide (0 < bal + (bracketDeltas l).sum)) := by
  induction l, bal using needsMoreInputLoop.induct with
  | case1 bal =>
    intro h hc
    simp [needsMoreInputLoop, bracketDeltas, runningOk]
  | case2 c rest bal hop ih =>
    intro h hc
    have hd : bracketDeltas (c :: rest) = 1 :: bracketDeltas rest := by
      simp [bracketDeltas, hop]
    rw [hd] at hc
    simp only [List.count_cons] at hc
    have h1 : (0 : Int) ≤ bal + 1 := by omega
    have hc1 : bal + 1 + ((bracketDeltas rest).count 1 : Int) < 2147483648 := by
      simp at hc
      omega
    have e : wrap32 (bal + 1) = bal + 1 :=
      wrap32_eq_self _ (by omega) (by omega)
    rw [e] at ih
    rw [needsMoreLoop_open c rest bal hop, e, ih h1 hc1, hd]
    simp [runningOk, h1]
    congr 1
    rw [decide_eq_decide]
    omega
  | case3 c rest bal hop hcl hneg =>
    intro h hc
    have hd : bracketDeltas (c :: rest) = (-1) :: bracketDeltas rest := by
      simp [bracketDeltas, hop, hcl]
    rw [hd] at hc
    simp only [List.count_cons] at hc
    simp at hc
    have e : wrap32 (bal - 1) = bal - 1 :=
      wrap32_eq_self _ (by omega) (by omega)
    rw [e] at hneg
    rw [needsMoreLoop_close c rest bal hop hcl, e, if_pos hneg, hd]
    have h2 : ¬(0 : Int) ≤ bal + (-1) := by omega
    simp [runningOk, h2]
  | case4 c rest bal hop hcl hneg ih =>
    intro h hc
    have hd : bracketDeltas (c :: rest) = (-1) :: bracketDeltas rest := by
      simp [bracketDeltas, hop, hcl]
    rw [hd] at hc
    simp only [List.count_cons] at hc
    simp at hc
    have e : wrap32 (bal - 1) = bal - 1 :=
      wrap32_eq_self _ (by omega) (by omega)
    rw [e] at hneg ih
    have h1 : (0 : Int) ≤ bal - 1 := by omega
    have hc1 : bal - 1 + ((bracketDeltas rest).count 1 : Int) < 2147483648 := by
      omega
    rw [needsMoreLoop_close c rest bal hop hcl, e, if_neg hneg, ih h1 hc1, hd]
    have h2 : (0 : Int) ≤ bal + (-1) := by omega
    simp [runningOk, h2]
    have e2 : bal + (-1) = bal - 1 := by ring
    rw [e2]
    congr 1
    rw [decide_eq_decide]
    omega
  | case5 c rest bal hop hcl hq ih =>
    intro h hc
    have hd : bracketDeltas (c :: rest) = bracketDeltas (skipString c rest) := by
      simp [bracketDeltas, hop, hcl, hq]
    rw [hd] at hc
    rw [needsMoreLoop_quote c rest bal hop hcl hq, ih h hc, hd]
  | case6 c rest bal hop hcl hq ih =>
    intro h hc
    have hd : bracketDeltas (c :: rest) = bracketDeltas rest := by
      simp [bracketDeltas, hop, hcl, hq]
    rw [hd] at hc
    rw [needsMoreLoop_other c rest bal hop hcl hq, ih h hc, hd]

/-- On a run of opening parens the scanner iterates the wrapping
increment: starting from balance `2^31 - k` with `1 ≤ k ≤ 2^31`, the
`i32` balance reaches `2^31 - 1`, wraps to `-2^31` on the last opener,
and the final strictly-positive test fails. -/
theorem needsMoreLoop_replicate_open (k : Nat) :
    ∀ bal : Int, 1 ≤ k → (k : Int) ≤ 2147483648 → bal = 2147483648 - k →
    needsMoreInputLoop (List.replicate k '(') bal = false := by
  induction k with
  | zero =>
    intro bal h1
    exact absurd h1 (by decide)
  | succ k ih =>
    intro bal h1 h2 hb
    rw [List.replicate_succ, needsMoreLoop_open _ _ _ (Or.inr (Or.inl rfl))]
    by_cases hk : k = 0
    · have hb1 : bal + 1 = 2147483648 := by
        rw [hk] at hb
        push_cast at hb
        omega
      have e : wrap32 (bal + 1) = -2147483648 := by
        rw [hb1]
        unfold wrap32
        omega
      rw [hk, e]
      simp [needsMoreInputLoop]
    · have hk1 : 1 ≤ k := Nat.one_le_iff_ne_zero.mpr hk
      have hk2 : (k : Int) ≤ 2147483648 := by push_cast at h2 ⊢; omega
      have hb1 : bal + 1 = 2147483648 - k := by push_cast at hb ⊢; omega
      have e : wrap32 (bal + 1) = bal + 1 :=
        wrap32_eq_self _ (by omega) (by omega)
      rw [e]
      exact ih (bal + 1) hk1 hk2 hb1

/-- The bracket deltas of a run of opening parens: one +1 per paren. -/
theorem bracketDeltas_replicate_open (n : Nat) :
    bracketDeltas (List.replicate n '(') = List.replicate n 1 := by
  induction n with
  | zero => simp [bracketDeltas]
  | succ n ih =>
    simp only [List.replicate_succ]
    rw [show bracketDeltas ('(' :: List.replicate n '(') =
        1 :: bracketDeltas (List.replicate n '(') from by simp [bracketDeltas]]
    rw [ih]

/-- Running sums over all-ones deltas stay non-negative from any
non-negative start. -/
theorem runningOk_replicate_one (n : Nat) :
    ∀ acc : Int, 0 ≤ acc → runningOk acc (List.replicate n 1) = true := by
  induction n with
  | zero =>
    intro acc h
    simp [runningOk]
  | succ n ih =>
    intro acc h
    simp only [List.replicate_succ, runningOk]
    have h1 : (0 : Int) ≤ acc + 1 := by omega
    simp [h1, ih (acc + 1) h1]

/-- C8 counterexample: on the input of 2^31 opening brackets the unbounded
running count never goes below zero and ends strictly positive, yet
`needs_more_input` returns false — the source's `i32` balance wraps to
-2^31 — so the claimed equivalence fails for this input. -/
theorem needs_more_input_overflow_cex :
    needs_more_input (String.mk (List.replicate 2147483648 '(')) = false ∧
    needs_more_input_spec (String.mk (List.replicate 2147483648 '(')) = true := by
  constructor
  · show needsMoreInputLoop (List.replicate 2147483648 '(') 0 = false
    exact needsMoreLoop_replicate_open 2147483648 0 (by norm_num) (by norm_num)
      (by norm_num)
  · show (runningOk 0 (bracketDeltas (List.replicate 2147483648 '(')) &&
      decide (0 < (bracketDeltas (List.replicate 2147483648 '(')).sum)) = true
    rw [bracketDeltas_replicate_open,
      runningOk_replicate_one 2147483648 0 (le_refl 0),
      List.sum_replicate, Bool.true_and, decide_eq_true_eq]
    norm_num

/-- C8 (amended): for every input string in which the number of opening
brackets outside string literals is below 2^31 (so the source's `i32`
balance cannot overflow), `needs_more_input` returns true if and only if
the shared bracket count — scanned left to right with string literals
skipped, one counter for all three bracket kinds — never goes below zero
and ends strictly positive. -/
theorem needs_more_input_matches_balance_spec (s : String)
    (h : ((bracketDeltas s.data).count 1 : Int) < 2147483648) :
    needs_more_input s = needs_more_input_spec s := by
  have h0 := needsMoreLoop_eq_spec s.data 0 (le_refl 0) (by simpa using h)
  simpa [needs_more_input, needs_more_input_spec] using h0

/-- Witness for C8 (amended) at the single-opener input. -/
theorem needs_more_input_matches_balance_spec_witness :
    needs_more_input "(" = needs_more_input_spec "(" :=
  needs_more_input_matches_balance_spec "(" (by
    rw [show "(".data = List.replicate 1 '(' from rfl,
      bracketDeltas_replicate_open]
    norm_num)

/-- Sending a list of values through the unpoisoned send adapter while the
receiver is alive appends them, in order, to the queue. -/
theorem sendAll_queue {T : Type} (vs : List T) (st : ChanSt T)
    (hp : st.txPoisoned = false) (hr : st.rxAlive = true) :
    sendAll st vs = { st with queue := st.queue ++ vs } := by
  induction vs generalizing st with
  | nil => simp [sendAll]
  | cons v vs ih =>
    have step : sendAll st (v :: vs) =
        sendAll { st with queue := st.queue ++ [v] } vs := by
      simp [sendAll, txChannelCall, hp, hr]
    rw [step, ih _ (by simp [hp]) (by simp [hr])]
    simp

/-- Draining a queue of known contents through the unpoisoned receive
adapter yields exactly those values, in order, each as a resolved result. -/
theorem recvOutcomes_queue {T : Type} (l : List T) (st : ChanSt T)
    (hp : st.rxPoisoned = false) (hq : st.queue = l) :
    recvOutcomes st l.length =
      l.map (fun v => AdapterOutcome.completes (Except.ok v)) := by
  induction l generalizing st with
  | nil => simp [recvOutcomes]
  | cons v vs ih =>
    simp only [List.length_cons, recvOutcomes, rxChannelCall, hp, hq,
      Bool.false_eq_true, if_false, List.map_cons]
    exact List.cons_eq_cons.mpr ⟨rfl, ih _ (by simp [hp]) (by simp)⟩

/-- C2: every sequence of values sent through the send adapter on a fresh
channel is yielded by successive invocations of the receive adapter in
FIFO order, with no value lost, duplicated or reordered. -/
theorem tx_rx_channel_fifo (T : Type) (vs : List T) :
    recvOutcomes (sendAll (freshChan T) vs) vs.length =
      vs.map (fun v => AdapterOutcome.completes (Except.ok v)) := by
  rw [sendAll_queue vs (freshChan T) rfl rfl]
  exact recvOutcomes_queue vs _ rfl (by simp [freshChan])

/-- C3: invoking the receive adapter when the sender is dropped and the
queue is drained rejects with "RX Channel Closed": it neither resolves
with a value nor suspends. -/
theorem rx_channel_closed_rejects (T : Type) (st : ChanSt T)
    (hp : st.rxPoisoned = false) (ht : st.txAlive = false)
    (hq : st.queue = []) :
    rxChannelCall st =
      (AdapterOutcome.completes
        (Except.error (RuntimeErr.jsException "RX Channel Closed")), st) := by
  simp [rxChannelCall, hp, ht, hq]

/-- Witness for C3 at a concrete closed, drained channel state. -/
theorem rx_channel_closed_rejects_witness :
    rxChannelCall (⟨[], false, true, false, false⟩ : ChanSt Nat) =
      (AdapterOutcome.completes
        (Except.error (RuntimeErr.jsException "RX Channel Closed")),
        (⟨[], false, true, false, false⟩ : ChanSt Nat)) :=
  rx_channel_closed_rejects Nat ⟨[], false, true, false, false⟩ rfl rfl rfl

/-- C4: with an unpoisoned lock, the send adapter appends the value and
resolves while the receiver is alive, and rejects with "TX Channel
Closed" leaving the queue unchanged once the receiver is dropped. -/
theorem tx_channel_send_atomicity (T : Type) (st : ChanSt T) (v : T)
    (hp : st.txPoisoned = false) :
    (st.rxAlive = true →
      txChannelCall st v = (Except.ok (), { st with queue := st.queue ++ [v] })) ∧
    (st.rxAlive = false →
      txChannelCall st v =
        (Except.error (RuntimeErr.jsException "TX Channel Closed"), st)) := by
  constructor
  · intro hr
    simp [txChannelCall, hp, hr]
  · intro hr
    simp [txChannelCall, hp, hr]

/-- Witness for C4 on a fresh channel: the sent value is appended. -/
theorem tx_channel_send_atomicity_witness :
    txChannelCall (freshChan Nat) 7 =
      (Except.ok (), { freshChan Nat with queue := [7] }) :=
  (tx_channel_send_atomicity Nat (freshChan Nat) 7 rfl).1 rfl

/-- C1 counterexample: after a first invocation, the second invocation of
the inline `resolve` closure of `examples/async_channel.rs` returns
silently — it is a no-op, not an "already resolved" error. -/
theorem inline_resolve_second_call_silent_cex :
    (inlineResolveCall (inlineResolveCall (oneshotFresh String) "a").2 "b").1 =
      Except.ok () ∧
    (inlineResolveCall (inlineResolveCall (oneshotFresh String) "a").2 "b").1 ≠
      Except.error (RuntimeErr.jsException "Already Resolved") := by
  constructor
  · rfl
  · simp [inlineResolveCall, oneshotFresh]

/-- C1 (amended): a second invocation of the `register_oneshot` adapter
(with an unpoisoned lock) always throws "Already Resolved", but the
inline `resolve` closures in the examples return silently on every
invocation, the second one included. -/
theorem oneshot_second_invocation_behavior :
    (∀ (T : Type) (st : OneshotSt T) (m1 m2 : T), st.poisoned = false →
      (oneshotCall (oneshotCall st m1).2 m2).1 =
        Except.error (RuntimeErr.jsException "Already Resolved")) ∧
    (∀ (T : Type) (st : OneshotSt T) (m1 m2 : T),
      (inlineResolveCall (inlineResolveCall st m1).2 m2).1 = Except.ok ()) := by
  constructor
  · intro T st m1 m2 hp
    cases hs : st.sender
    · simp [oneshotCall, hp, hs]
    · cases hr : st.rxAlive <;> simp [oneshotCall, hp, hs, hr]
  · intro T st m1 m2
    cases hp : st.poisoned
    · cases hs : st.sender
      · simp [inlineResolveCall, hp, hs]
      · cases hr : st.rxAlive <;> simp [inlineResolveCall, hp, hs, hr]
    · simp [inlineResolveCall, hp]

/-- Witness for C1 (amended): the second call on a fresh
`register_oneshot` state throws "Already Resolved". -/
theorem oneshot_second_invocation_behavior_witness :
    (oneshotCall (oneshotCall (oneshotFresh Nat) 1).2 2).1 =
      Except.error (RuntimeErr.jsException "Already Resolved") :=
  oneshot_second_invocation_behavior.1 Nat (oneshotFresh Nat) 1 2 rfl

/-- C5: on every state and message, each adapter closure returns either a
success or a thrown script exception — never a host panic; the closures
are total. -/
theorem adapters_never_panic (T : Type) (st1 : OneshotSt T)
    (st2 : ChanSt T) (m : T) :
    noPanicResult (oneshotCall st1 m).1 ∧
    noPanicResult (inlineResolveCall st1 m).1 ∧
    noPanicResult (txChannelCall st2 m).1 ∧
    noPanicOutcome (rxChannelCall st2).1 := by
  refine ⟨?_, ?_, ?_, ?_⟩
  · cases hp : st1.poisoned <;> cases hs : st1.sender <;>
      cases hr : st1.rxAlive <;>
      simp [oneshotCall, hp, hs, hr, noPanicResult]
  · cases hp : st1.poisoned <;> cases hs : st1.sender <;>
      cases hr : st1.rxAlive <;>
      simp [inlineResolveCall, hp, hs, hr, noPanicResult]
  · cases hp : st2.txPoisoned <;> cases hr : st2.rxAlive <;>
      simp [txChannelCall, hp, hr, noPanicResult]
  · cases hp : st2.rxPoisoned <;> cases ht : st2.txAlive <;>
      cases hq : st2.queue <;>
      simp [rxChannelCall, hp, ht, hq, noPanicOutcome, noPanicResult]

/-- C6: a value sent through the send adapter of `examples/channel.rs` on
a fresh channel is received by the host unmodified; in particular the
literal string "Hello from JS" round-trips exactly. -/
theorem send_roundtrip_identity :
    (∀ (T : Type) (v : T), (hostRecv (sendCall (freshChan T) v).2).1 = some v) ∧
    (hostRecv (sendCall (freshChan String) "Hello from JS").2).1 =
      some "Hello from JS" := by
  constructor
  · intro T v
    simp [sendCall, hostRecv, freshChan]
  · rfl

/-- C7: `get_script` returns stdin for "-", the contents of the file named
by the argument minus its first character for "@path" (the read outcome,
an Err included, passed through), and the argument itself otherwise; the
"-" test is made first. -/
theorem get_script_cases (s : String) (stdinRes : Except String String)
    (fs : String → Except String String) :
    (s = "-" → get_script s stdinRes fs = stdinRes) ∧
    (s ≠ "-" → s.startsWith "@" = true → get_script s stdinRes fs = fs (s.drop 1)) ∧
    (s ≠ "-" → s.startsWith "@" = false → get_script s stdinRes fs = Except.ok s) := by
  refine ⟨?_, ?_, ?_⟩
  · intro h
    simp [get_script, h]
  · intro h h2
    simp [get_script, h, h2]
  · intro h h2
    simp [get_script, h, h2]

/-- Witness for C7: "-" yields the stdin contents. -/
theorem get_script_cases_witness :
    get_script "-" (Except.ok "stdin script text") (fun p => Except.ok p) =
      Except.ok "stdin script text" :=
  (get_script_cases "-" (Except.ok "stdin script text") (fun p => Except.ok p)).1 rfl

/-- C9: one REPL iteration leaves the globals untouched when the result is
undefined (printing nothing), and otherwise binds `_` to exactly the
result, changing no other global; an evaluation error also changes
nothing. -/
theorem repl_underscore_binding (V E : Type) (und : V → Bool)
    (g : String → Option V) (v : V) (e : E) :
    (und v = true →
      replApplyResult und g (Except.ok v : Except E V) = (g, none)) ∧
    (und v = false →
      (replApplyResult und g (Except.ok v : Except E V)).1 "_" = some v ∧
      (∀ k, k ≠ "_" →
        (replApplyResult und g (Except.ok v : Except E V)).1 k = g k) ∧
      (replApplyResult und g (Except.ok v : Except E V)).2 = some v) ∧
    replApplyResult und g (Except.error e) = (g, none) := by
  refine ⟨?_, ?_, ?_⟩
  · intro h
    simp [replApplyResult, h]
  · intro h
    refine ⟨?_, ?_, ?_⟩
    · simp [replApplyResult, h, setGlobal]
    · intro k hk
      simp [replApplyResult, h, setGlobal, hk]
    · simp [replApplyResult, h]
  · rfl

/-- Witness for C9: a defined result is bound to `_`. -/
theorem repl_underscore_binding_witness :
    (replApplyResult (fun b => b) (fun _ => (none : Option Bool))
      (Except.ok false : Except Unit Bool)).1 "_" = some false :=
  ((repl_underscore_binding Bool Unit (fun b => b) (fun _ => none) false ()).2.1 rfl).1

/-- C10 counterexample: when `json_stringify` itself fails, `value_to_json`
propagates that error unchanged instead of returning "JSON Error". -/
theorem value_to_json_error_propagation_cex :
    value_to_json ⟨false, StringifyOutcome.err "TypeError: circular reference"⟩ =
      Except.error "TypeError: circular reference" ∧
    value_to_json ⟨false, StringifyOutcome.err "TypeError: circular reference"⟩ ≠
      Except.error "JSON Error" := by
  constructor
  · rfl
  · intro h
    rw [show value_to_json ⟨false, StringifyOutcome.err "TypeError: circular reference"⟩ =
      Except.error "TypeError: circular reference" from rfl] at h
    injection h with h2
    exact absurd h2 (by decide)

/-- C10 (amended): `value_to_json` returns "null" for undefined, the
stringification when it yields a string, "JSON Error" when stringification
succeeds without yielding a string, and the propagated engine error when
stringification itself fails; it never panics. -/
theorem value_to_json_cases (v : JsVal) :
    (v.isUndefined = true → value_to_json v = Except.ok "null") ∧
    (v.isUndefined = false → ∀ s, v.stringify = StringifyOutcome.strval s →
      value_to_json v = Except.ok s) ∧
    (v.isUndefined = false → v.stringify = StringifyOutcome.noString →
      value_to_json v = Except.error "JSON Error") ∧
    (v.isUndefined = false → ∀ m, v.stringify = StringifyOutcome.err m →
      value_to_json v = Except.error m) := by
  refine ⟨?_, ?_, ?_, ?_⟩
  · intro h
    simp [value_to_json, h]
  · intro h s hs
    simp [value_to_json, h, hs]
  · intro h hs
    simp [value_to_json, h, hs]
  · intro h m hm
    simp [value_to_json, h, hm]

/-- Witness for C10 (amended): an undefined value maps to "null". -/
theorem value_to_json_cases_witness :
    value_to_json ⟨true, StringifyOutcome.noString⟩ = Except.ok "null" :=
  (value_to_json_cases ⟨true, StringifyOutcome.noString⟩).1 rfl
